import Mathlib

/-!
Verification of the MLB Player Analyzer backend (`app.py`).

The program is a Flask app with three data endpoints:
  * `/api/players` (`get_players`): fetch season batting/pitching rows,
    filter by team, project fields, sort each list by games descending;
  * `/api/player-stats` (`get_player_stats`): exact-name lookup in the
    season dataset, 404 when absent, flat stat object otherwise;
  * `/api/analyze` (`analyze_player`): build a role-specific prompt from
    the submitted stat record, call a text model, and parse the reply
    into `{summary, grade, grade_text}`.

Strings are embedded as `List Char` (Python `str` values), with Python's
`str.strip`, `str.index`, the `in` substring test and slicing translated
directly.  Numeric dataframe cells are carried as already-coerced values
(`Int` for `int(...)` fields, `Rat` for `round(float(...), k)` fields);
no claim depends on the floating-point rounding itself.  JSON payload
values interpolated into f-strings are carried as their rendered text.
-/

namespace MLBAnalyzer

/-- ASCII whitespace, as stripped/split by Python `str.strip()` / `str.split()`. -/
def isWS (c : Char) : Bool :=
  c = ' ' || c = '\t' || c = '\n' || c = '\r' || c = '\x0b' || c = '\x0c'

/-- Python `s.strip()`: drop leading and trailing whitespace. -/
def pstrip (l : List Char) : List Char :=
  ((l.dropWhile isWS).reverse.dropWhile isWS).reverse

/-- Python `s.index(pat)` / `pat in s`: the least index at which `pat`
occurs in `s` as a contiguous substring, if any. -/
def idx? (s pat : List Char) : Option Nat :=
  (List.range (s.length + 1)).find? (fun i => pat.isPrefixOf (s.drop i))

/-- Python `pat in s` (substring containment). -/
def hasSub (s pat : List Char) : Bool := (idx? s pat).isSome

/-- The literal marker `"SUMMARY:"` (app.py line 308). -/
def SUMMARY_MARK : List Char := "SUMMARY:".toList

/-- The literal marker `"GRADE:"` (app.py line 308). -/
def GRADE_MARK : List Char := "GRADE:".toList

/-- The `valid_grades` set of 13 grade tokens (app.py line 315). -/
def valid_grades : List (List Char) :=
  ["A+", "A", "A-", "B+", "B", "B-", "C+", "C", "C-", "D+", "D", "D-", "F"].map
    String.toList

/-- The fixed fallback priority list scanned at app.py line 320:
modifier tokens first, then bare letters, then F. -/
def grade_priority : List (List Char) :=
  ["A+", "A-", "B+", "B-", "C+", "C-", "D+", "D-", "A", "B", "C", "D", "F"].map
    String.toList

/-- `grade_block.split()[0] if grade_block else ""` (app.py line 314).
In `analyze_player` this is only applied to already-stripped text, where a
nonempty argument starts with a non-whitespace character and `split()` is
nonempty, so taking the leading non-whitespace run after skipping leading
whitespace coincides with `split()[0]`. -/
def firstTok (l : List Char) : List Char :=
  if l = [] then []
  else (l.dropWhile isWS).takeWhile (fun c => !isWS c)

/-- The parsed analysis result `{summary, grade, grade_text}`
(app.py lines 329-333). -/
structure GradeResult where
  summary : List Char
  grade : List Char
  grade_text : List Char
deriving DecidableEq

/-- Grade extraction from the stripped grade block (app.py lines 314-324):
accept the first whitespace-delimited token when it is a valid grade,
otherwise scan the block for the first priority-list token occurring as a
substring; returns `(grade_letter, grade_text)`, both `""` when nothing
matches. -/
def gradeFromBlock (block : List Char) : List Char × List Char :=
  if firstTok block ∈ valid_grades then (firstTok block, block)
  else
    match grade_priority.find? (fun g => hasSub block g) with
    | some g => (g, block)
    | none => ([], [])

/-- Response parsing of `analyze_player` (app.py lines 303-327): strip the
raw model text; when both markers occur, the summary is the stripped text
between the end of the first `"SUMMARY:"` and the first `"GRADE:"`, and the
grade is extracted from the stripped text after `"GRADE:"`; otherwise the
whole stripped text is the summary and the grade is reported undetected. -/
def parseResponse (text : List Char) : GradeResult :=
  match idx? (pstrip text) SUMMARY_MARK, idx? (pstrip text) GRADE_MARK with
  | some si, some gi =>
      ⟨pstrip (((pstrip text).drop (si + SUMMARY_MARK.length)).take
          (gi - (si + SUMMARY_MARK.length))),
       (gradeFromBlock (pstrip ((pstrip text).drop (gi + GRADE_MARK.length)))).1,
       (gradeFromBlock (pstrip ((pstrip text).drop (gi + GRADE_MARK.length)))).2⟩
  | _, _ => ⟨pstrip text, [], "Grade not detected.".toList⟩

/-- The success path of `analyze_player` after the model call returns
`text` (app.py lines 303-333): parsing never raises, and the endpoint
answers HTTP 200 with the parsed fields. -/
def analyzeRespond (text : List Char) : Nat × GradeResult :=
  (200, parseResponse text)

/-- The stripped grade block computed at app.py line 312 when `"GRADE:"`
first occurs at index `gi` of the stripped raw text. -/
def gradeBlockOf (text : List Char) (gi : Nat) : List Char :=
  pstrip ((pstrip text).drop (gi + GRADE_MARK.length))

/-- A row of the season batting dataframe (`pybaseball.batting_stats`),
restricted to the columns `app.py` reads.  Count columns are carried after
`int(...)` coercion, rate columns after `round(float(...), k)` (the claims
do not depend on the rounding); `wRC+` is optional, matching the
`if "wRC+" in row` check at line 173. -/
structure BatterRow where
  Name : String
  Team : String
  G : Int
  AB : Int
  H : Int
  doubles2B : Int
  triples3B : Int
  HR : Int
  RBI : Int
  SB : Int
  BB : Int
  SO : Int
  AVG : Rat
  OBP : Rat
  SLG : Rat
  OPS : Rat
  WAR : Rat
  wRCplus : Option Int
deriving DecidableEq

/-- A row of the season pitching dataframe (`pybaseball.pitching_stats`),
restricted to the columns `app.py` reads; `K/9`, `BB/9` and `FIP` are
optional, matching the `if ... in row` checks at lines 198-200. -/
structure PitcherRow where
  Name : String
  Team : String
  G : Int
  GS : Int
  W : Int
  L : Int
  SV : Int
  IP : Rat
  SO : Int
  BB : Int
  ERA : Rat
  WHIP : Rat
  K9 : Option Rat
  BB9 : Option Rat
  FIP : Option Rat
  WAR : Rat
deriving DecidableEq

/-- The `MLB_TEAMS` mapping of team codes to display names
(app.py lines 40-71). -/
def MLB_TEAMS : List (String × String) :=
  [("ARI", "Arizona Diamondbacks"), ("ATL", "Atlanta Braves"),
   ("BAL", "Baltimore Orioles"), ("BOS", "Boston Red Sox"),
   ("CHC", "Chicago Cubs"), ("CHW", "Chicago White Sox"),
   ("CIN", "Cincinnati Reds"), ("CLE", "Cleveland Guardians"),
   ("COL", "Colorado Rockies"), ("DET", "Detroit Tigers"),
   ("HOU", "Houston Astros"), ("KCR", "Kansas City Royals"),
   ("LAA", "Los Angeles Angels"), ("LAD", "Los Angeles Dodgers"),
   ("MIA", "Miami Marlins"), ("MIL", "Milwaukee Brewers"),
   ("MIN", "Minnesota Twins"), ("NYM", "New York Mets"),
   ("NYY", "New York Yankees"), ("OAK", "Oakland Athletics"),
   ("PHI", "Philadelphia Phillies"), ("PIT", "Pittsburgh Pirates"),
   ("SDP", "San Diego Padres"), ("SFG", "San Francisco Giants"),
   ("SEA", "Seattle Mariners"), ("STL", "St. Louis Cardinals"),
   ("TBR", "Tampa Bay Rays"), ("TEX", "Texas Rangers"),
   ("TOR", "Toronto Blue Jays"), ("WSN", "Washington Nationals")]

/-- One element of the `/api/players` batters list (app.py lines 99-107);
the JSON key `type` always holds `"Batter"` here. -/
structure RosterBatter where
  name : String
  type : String
  games : Int
  avg : Rat
  hr : Int
  rbi : Int
  ops : Rat
deriving DecidableEq

/-- One element of the `/api/players` pitchers list (app.py lines 111-119). -/
structure RosterPitcher where
  name : String
  type : String
  games : Int
  era : Rat
  wins : Int
  strikeouts : Int
  whip : Rat
deriving DecidableEq

/-- The projection of a team batter row performed at app.py lines 99-107. -/
def mkRosterBatter (r : BatterRow) : RosterBatter :=
  ⟨r.Name, "Batter", r.G, r.AVG, r.HR, r.RBI, r.OPS⟩

/-- The projection of a team pitcher row performed at app.py lines 111-119. -/
def mkRosterPitcher (r : PitcherRow) : RosterPitcher :=
  ⟨r.Name, "Pitcher", r.G, r.ERA, r.W, r.SO, r.WHIP⟩

/-- Descending-games order used by `batters_list.sort(key=..., reverse=True)`. -/
def battersGE (a b : RosterBatter) : Prop := b.games ≤ a.games

/-- Descending-games order used by `pitchers_list.sort(key=..., reverse=True)`. -/
def pitchersGE (a b : RosterPitcher) : Prop := b.games ≤ a.games

instance : DecidableRel battersGE := fun _ _ => inferInstanceAs (Decidable (_ ≤ _))

instance : DecidableRel pitchersGE := fun _ _ => inferInstanceAs (Decidable (_ ≤ _))

instance : IsTotal RosterBatter battersGE := ⟨fun a b => Int.le_total b.games a.games⟩

instance : IsTrans RosterBatter battersGE := ⟨fun _ _ _ h1 h2 => le_trans h2 h1⟩

instance : IsTotal RosterPitcher pitchersGE := ⟨fun a b => Int.le_total b.games a.games⟩

instance : IsTrans RosterPitcher pitchersGE := ⟨fun _ _ _ h1 h2 => le_trans h2 h1⟩

/-- The batters list of `get_players` (app.py lines 94-121): filter the
season rows to the requested team, project the display fields, and sort by
games played, descending.  Python `list.sort` is stable, so its output is
the one produced by any stable sort; it is embedded as the stable
`List.insertionSort` under the descending-games order. -/
def teamBatters (team : String) (df : List BatterRow) : List RosterBatter :=
  List.insertionSort battersGE ((df.filter (fun r => r.Team = team)).map mkRosterBatter)

/-- The pitchers list of `get_players` (app.py lines 95-122), as
`teamBatters`. -/
def teamPitchers (team : String) (df : List PitcherRow) : List RosterPitcher :=
  List.insertionSort pitchersGE ((df.filter (fun r => r.Team = team)).map mkRosterPitcher)

/-- The success body of `/api/players` (app.py lines 124-129). -/
structure PlayersResp where
  team : String
  year : Int
  batters : List RosterBatter
  pitchers : List RosterPitcher
deriving DecidableEq

/-- A `/api/players` response body: an error message or the roster. -/
inductive PlayersBody where
  | error (msg : String)
  | ok (r : PlayersResp)
deriving DecidableEq

/-- The `get_players` endpoint (app.py lines 82-132) on already-retrieved
season dataframes: missing `team`/`year` (falsy: absent or empty/zero)
gives 400, otherwise 200 with the filtered, projected, games-descending
roster; the team display name falls back to the code itself. -/
def getPlayersEndpoint (team : String) (year : Int)
    (bdf : List BatterRow) (pdf : List PitcherRow) : Nat × PlayersBody :=
  if team = "" ∨ year = 0 then (400, .error "Team and year are required")
  else
    (200, .ok ⟨((MLB_TEAMS.lookup team).getD team), year,
               teamBatters team bdf, teamPitchers team pdf⟩)

/-- The flat Batter stat object returned by `/api/player-stats`
(app.py lines 153-174); `wrc_plus` is `"N/A"` (here `none`) when the
season schema lacks `wRC+`. -/
structure BatterStatsResp where
  name : String
  year : Int
  type : String
  team : String
  games : Int
  at_bats : Int
  hits : Int
  doubles : Int
  triples : Int
  home_runs : Int
  rbi : Int
  stolen_bases : Int
  walks : Int
  strikeouts : Int
  avg : Rat
  obp : Rat
  slg : Rat
  ops : Rat
  war : Rat
  wrc_plus : Option Int
deriving DecidableEq

/-- The flat Pitcher stat object returned by `/api/player-stats`
(app.py lines 183-202). -/
structure PitcherStatsResp where
  name : String
  year : Int
  type : String
  team : String
  games : Int
  games_started : Int
  wins : Int
  losses : Int
  saves : Int
  innings_pitched : Rat
  strikeouts : Int
  walks : Int
  era : Rat
  whip : Rat
  k9 : Option Rat
  bb9 : Option Rat
  fip : Option Rat
  war : Rat
deriving DecidableEq

/-- A `/api/player-stats` response body. -/
inductive PSBody where
  | error (msg : String)
  | batterStats (s : BatterStatsResp)
  | pitcherStats (s : PitcherStatsResp)
deriving DecidableEq

/-- The Batter projection of app.py lines 152-174. -/
def mkBatterStats (name : String) (year : Int) (r : BatterRow) : BatterStatsResp :=
  ⟨name, year, "Batter", r.Team, r.G, r.AB, r.H, r.doubles2B, r.triples3B, r.HR,
   r.RBI, r.SB, r.BB, r.SO, r.AVG, r.OBP, r.SLG, r.OPS, r.WAR, r.wRCplus⟩

/-- The Pitcher projection of app.py lines 182-202. -/
def mkPitcherStats (name : String) (year : Int) (r : PitcherRow) : PitcherStatsResp :=
  ⟨name, year, "Pitcher", r.Team, r.G, r.GS, r.W, r.L, r.SV, r.IP, r.SO, r.BB,
   r.ERA, r.WHIP, r.K9, r.BB9, r.FIP, r.WAR⟩

/-- The `get_player_stats` endpoint (app.py lines 135-207) on
already-retrieved season dataframes.  Matching is exact equality on the
dataset's `Name` column (`df[df["Name"] == player_name]`); an empty match
gives 404 `"Player not found"`, otherwise the first matching row
(`iloc[0]`) is projected.  Only the exact string `"Batter"` selects the
batting dataset; every other type value selects the pitching dataset. -/
def getPlayerStats (name : String) (year : Int) (ptype : String)
    (bdf : List BatterRow) (pdf : List PitcherRow) : Nat × PSBody :=
  if name = "" ∨ year = 0 then
    (400, .error "Player name and year are required")
  else if ptype = "Batter" then
    match bdf.filter (fun r => r.Name = name) with
    | [] => (404, .error "Player not found")
    | r :: _ => (200, .batterStats (mkBatterStats name year r))
  else
    match pdf.filter (fun r => r.Name = name) with
    | [] => (404, .error "Player not found")
    | r :: _ => (200, .pitcherStats (mkPitcherStats name year r))

/-- The JSON payload of `/api/analyze` (app.py lines 212-268) as consumed
by `analyze_player`: every `data.get(...)` value that is interpolated into
an f-string is carried as its rendered text, and the branching `type`
field as a `String`. -/
structure AnalyzeData where
  name : List Char
  year : List Char
  team : List Char
  games : List Char
  at_bats : List Char
  hits : List Char
  avg : List Char
  obp : List Char
  slg : List Char
  ops : List Char
  home_runs : List Char
  rbi : List Char
  stolen_bases : List Char
  walks : List Char
  strikeouts : List Char
  doubles : List Char
  triples : List Char
  war : List Char
  wrc_plus : List Char
  games_started : List Char
  wins : List Char
  losses : List Char
  saves : List Char
  innings_pitched : List Char
  era : List Char
  whip : List Char
  k9 : List Char
  bb9 : List Char
  fip : List Char
deriving DecidableEq

/-- The Batter `stat_lines` list (app.py lines 225-242). -/
def batterStatLines (d : AnalyzeData) : List (List Char) :=
  ["Games: ".toList ++ d.games,
   "At-Bats: ".toList ++ d.at_bats,
   "Hits: ".toList ++ d.hits,
   "Batting Average (AVG): ".toList ++ d.avg,
   "On-Base Percentage (OBP): ".toList ++ d.obp,
   "Slugging Percentage (SLG): ".toList ++ d.slg,
   "OPS: ".toList ++ d.ops,
   "Home Runs (HR): ".toList ++ d.home_runs,
   "RBI: ".toList ++ d.rbi,
   "Stolen Bases (SB): ".toList ++ d.stolen_bases,
   "Walks (BB): ".toList ++ d.walks,
   "Strikeouts (SO): ".toList ++ d.strikeouts,
   "Doubles (2B): ".toList ++ d.doubles,
   "Triples (3B): ".toList ++ d.triples,
   "WAR: ".toList ++ d.war,
   "wRC+: ".toList ++ d.wrc_plus]

/-- The Pitcher `stat_lines` list (app.py lines 254-269). -/
def pitcherStatLines (d : AnalyzeData) : List (List Char) :=
  ["Games: ".toList ++ d.games,
   "Games Started (GS): ".toList ++ d.games_started,
   "Wins: ".toList ++ d.wins,
   "Losses: ".toList ++ d.losses,
   "Saves: ".toList ++ d.saves,
   "Innings Pitched (IP): ".toList ++ d.innings_pitched,
   "ERA: ".toList ++ d.era,
   "WHIP: ".toList ++ d.whip,
   "Strikeouts (K): ".toList ++ d.strikeouts,
   "Walks (BB): ".toList ++ d.walks,
   "K/9: ".toList ++ d.k9,
   "BB/9: ".toList ++ d.bb9,
   "FIP: ".toList ++ d.fip,
   "WAR: ".toList ++ d.war]

/-- The position-player grading rubric (app.py lines 244-252). -/
def batterBenchmarks : List Char :=
  ("Use these grade benchmarks for a position player:\n" ++
   "  A+ = MVP-caliber (WAR 7+, OPS 1.000+)\n" ++
   "  A  = All-Star level (WAR 5-7, OPS .900-.999)\n" ++
   "  B  = Above average starter (WAR 3-5, OPS .800-.899)\n" ++
   "  C  = Average MLB starter (WAR 1-3, OPS .700-.799)\n" ++
   "  D  = Below average / fringe starter (WAR 0-1, OPS .600-.699)\n" ++
   "  F  = Replacement level or worse (WAR < 0, OPS below .600)").toList

/-- The pitcher grading rubric (app.py lines 271-279). -/
def pitcherBenchmarks : List Char :=
  ("Use these grade benchmarks for a pitcher:\n" ++
   "  A+ = Cy Young-caliber (WAR 7+, ERA sub-2.50)\n" ++
   "  A  = Top-of-rotation / elite closer (WAR 4-7, ERA 2.50-3.25)\n" ++
   "  B  = Solid starter or high-leverage reliever (WAR 2-4, ERA 3.25-3.75)\n" ++
   "  C  = League-average (WAR 1-2, ERA 3.75-4.50)\n" ++
   "  D  = Below average (WAR 0-1, ERA 4.50-5.50)\n" ++
   "  F  = Replacement level or worse (WAR < 0, ERA 5.50+)").toList

/-- The role-dependent triple chosen by the `if player_type == "Batter"`
branch of `analyze_player` (app.py lines 224-279): stat lines, role
context, and grading rubric. -/
structure RoleSelection where
  stat_lines : List (List Char)
  role_context : List Char
  grade_benchmarks : List Char
deriving DecidableEq

/-- The branch selection of app.py lines 224-279: only the exact string
`"Batter"` selects the batter stat lines and rubric. -/
def selectRole (ptype : String) (d : AnalyzeData) : RoleSelection :=
  if ptype = "Batter" then
    ⟨batterStatLines d, "position player (batter)".toList, batterBenchmarks⟩
  else
    ⟨pitcherStatLines d, "pitcher".toList, pitcherBenchmarks⟩

/-- `stats_block = "\n".join(stat_lines)` (app.py line 281). -/
def statsBlock (lines : List (List Char)) : List Char :=
  List.intercalate "\n".toList lines

/-- The prompt text up to the role context (app.py lines 283-285). -/
def promptHead (d : AnalyzeData) : List Char :=
  ("You are an expert MLB baseball analyst with deep knowledge of " ++
   "sabermetrics and historical player performance.\n\n" ++
   "Analyze the following ").toList ++
  d.year ++ " season statistics for ".toList ++ d.name ++ ", a ".toList

/-- The fixed output-format directive closing the prompt
(app.py lines 292-300). -/
def promptTail : List Char :=
  ("\n\nYour response MUST follow this exact format with these two " ++
   "sections:\n\nSUMMARY:\nWrite 2-3 paragraphs evaluating the player's " ++
   "season. Discuss their strengths, weaknesses, and how their numbers " ++
   "compare to league averages and position-adjusted expectations. " ++
   "Reference specific stats to support your analysis. Keep the tone " ++
   "professional but engaging, like a baseball analyst writing for a " ++
   "knowledgeable audience.\n\nGRADE:\nAssign a single letter grade " ++
   "(A+, A, A-, B+, B, B-, C+, C, C-, D+, D, D-, or F) based on the " ++
   "benchmarks above. Then write one sentence explaining the grade.\n\n" ++
   "Do not include any other sections or commentary outside of SUMMARY " ++
   "and GRADE.").toList

/-- The prompt f-string of app.py lines 283-300, as the concatenation of
its literal segments and interpolations. -/
def buildPrompt (ptype : String) (d : AnalyzeData) : List Char :=
  promptHead d ++
  (selectRole ptype d).role_context ++ ".\n\n".toList ++
  (selectRole ptype d).grade_benchmarks ++ "\n\n".toList ++
  d.year ++ " Season Stats:\n".toList ++
  statsBlock (selectRole ptype d).stat_lines ++
  promptTail

/-- The JSON keys of the Batter `/api/player-stats` response
(app.py lines 153-174). -/
def batterStatsFields : List String :=
  ["name", "year", "type", "team", "games", "at_bats", "hits", "doubles",
   "triples", "home_runs", "rbi", "stolen_bases", "walks", "strikeouts",
   "avg", "obp", "slg", "ops", "war", "wrc_plus"]

/-- Sample season batting row (concrete witness data). -/
def wBatterA : BatterRow :=
  { Name := "Anthony Volpe", Team := "NYY", G := 100, AB := 400, H := 90,
    doubles2B := 15, triples3B := 2, HR := 12, RBI := 50, SB := 20, BB := 30,
    SO := 110, AVG := 0, OBP := 0, SLG := 0, OPS := 0, WAR := 1,
    wRCplus := some 85 }

/-- Sample season batting row with more games played (witness data). -/
def wBatterB : BatterRow :=
  { Name := "Aaron Judge", Team := "NYY", G := 150, AB := 500, H := 140,
    doubles2B := 20, triples3B := 1, HR := 40, RBI := 100, SB := 5, BB := 90,
    SO := 120, AVG := 0, OBP := 0, SLG := 0, OPS := 1, WAR := 6,
    wRCplus := some 170 }

/-- Sample season batting row on another team (witness data). -/
def wBatterC : BatterRow :=
  { Name := "Rafael Devers", Team := "BOS", G := 120, AB := 450, H := 120,
    doubles2B := 30, triples3B := 0, HR := 28, RBI := 80, SB := 3, BB := 40,
    SO := 100, AVG := 0, OBP := 0, SLG := 0, OPS := 0, WAR := 3,
    wRCplus := some 120 }

/-- Sample season pitching row (witness data). -/
def wPitcher : PitcherRow :=
  { Name := "Gerrit Cole", Team := "NYY", G := 33, GS := 33, W := 15, L := 4,
    SV := 0, IP := 209, SO := 222, BB := 48, ERA := 2, WHIP := 1,
    K9 := some 9, BB9 := some 2, FIP := some 3, WAR := 5 }

/-- Sample `/api/analyze` payload (witness data); its `team` value
`TEAMX` occurs in no other field. -/
def wData : AnalyzeData :=
  { name := "Aaron Judge".toList, year := "2023".toList,
    team := "TEAMX".toList, games := "106".toList, at_bats := "367".toList,
    hits := "98".toList, avg := "0.267".toList, obp := "0.406".toList,
    slg := "0.613".toList, ops := "1.019".toList, home_runs := "37".toList,
    rbi := "75".toList, stolen_bases := "0".toList, walks := "88".toList,
    strikeouts := "130".toList, doubles := "16".toList, triples := "0".toList,
    war := "4.9".toList, wrc_plus := "175".toList,
    games_started := "33".toList, wins := "15".toList, losses := "4".toList,
    saves := "0".toList, innings_pitched := "209.0".toList,
    era := "2.63".toList, whip := "0.98".toList, k9 := "9.6".toList,
    bb9 := "2.1".toList, fip := "2.8".toList }

/-- Every token of the fallback priority list is a valid grade token. -/
theorem mem_priority_valid : ∀ g ∈ grade_priority, g ∈ valid_grades := by decide

/-- Every valid grade token occurs in the fallback priority list. -/
theorem mem_valid_priority : ∀ g ∈ valid_grades, g ∈ grade_priority := by decide

/-- The grade extracted from a block is a valid token, or `""` when no
valid token occurs as a substring of the block. -/
theorem gradeFromBlock_spec (block : List Char) :
    (gradeFromBlock block).1 ∈ valid_grades ∨
      ((gradeFromBlock block).1 = [] ∧ ∀ g ∈ valid_grades, hasSub block g = false) := by
  unfold gradeFromBlock
  by_cases hft : firstTok block ∈ valid_grades
  · rw [if_pos hft]
    exact Or.inl hft
  · rw [if_neg hft]
    cases hf : grade_priority.find? (fun g => hasSub block g) with
    | some g =>
        exact Or.inl (mem_priority_valid g (List.mem_of_find?_eq_some hf))
    | none =>
        refine Or.inr ⟨rfl, fun g hg => ?_⟩
        have h := List.find?_eq_none.mp hf g (mem_valid_priority g hg)
        simpa using h

/-- C1: for every raw model response containing both markers in which the
grade block's first whitespace-delimited token is a valid grade token
while a different valid token occurs later in the block, the parser
returns the first token as `grade_letter`; the fallback priority scan is
never consulted (the result is the first token unconditionally). -/
theorem first_token_takes_precedence (text : List Char) (si gi : Nat)
    (h1 : idx? (pstrip text) SUMMARY_MARK = some si)
    (h2 : idx? (pstrip text) GRADE_MARK = some gi)
    (hft : firstTok (gradeBlockOf text gi) ∈ valid_grades)
    (_hlater : ∃ g ∈ valid_grades, g ≠ firstTok (gradeBlockOf text gi) ∧
      hasSub ((gradeBlockOf text gi).drop (firstTok (gradeBlockOf text gi)).length) g
        = true) :
    (parseResponse text).grade = firstTok (gradeBlockOf text gi) := by
  unfold gradeBlockOf at hft
  simp only [parseResponse, h1, h2, gradeFromBlock, gradeBlockOf, if_pos hft]

/-- C1 witness: `"SUMMARY: solid year. GRADE: B overall, maybe B+ upside"`
has first grade token `B` while `B+` occurs later, and the parser
returns `B`. -/
theorem first_token_takes_precedence_witness :
    idx? (pstrip "SUMMARY: solid year. GRADE: B overall, maybe B+ upside".toList)
        SUMMARY_MARK = some 0 ∧
    idx? (pstrip "SUMMARY: solid year. GRADE: B overall, maybe B+ upside".toList)
        GRADE_MARK = some 21 ∧
    firstTok (gradeBlockOf
        "SUMMARY: solid year. GRADE: B overall, maybe B+ upside".toList 21)
      = "B".toList ∧
    (parseResponse "SUMMARY: solid year. GRADE: B overall, maybe B+ upside".toList).grade
      = firstTok (gradeBlockOf
          "SUMMARY: solid year. GRADE: B overall, maybe B+ upside".toList 21) :=
  ⟨by decide, by decide, by decide,
   first_token_takes_precedence
     "SUMMARY: solid year. GRADE: B overall, maybe B+ upside".toList 0 21
     (by decide) (by decide) (by decide)
     ⟨"B+".toList, by decide, by decide, by decide⟩⟩

/-- C2 counterexample: in `"SUMMARY: s GRADE: no A- A A+"` the grade block
is `"no A- A A+"` — its first token `no` is invalid, `A-` occurs (index 3)
positionally before the bare `A` (index 6) — yet the parser returns `A+`,
not `A-`: the fallback returns the first token of the fixed priority list
that occurs anywhere in the block, and `A+` precedes `A-` in that list
regardless of position. -/
theorem fallback_scan_counterexample :
    idx? (pstrip "SUMMARY: s GRADE: no A- A A+".toList) SUMMARY_MARK = some 0 ∧
    idx? (pstrip "SUMMARY: s GRADE: no A- A A+".toList) GRADE_MARK = some 11 ∧
    gradeBlockOf "SUMMARY: s GRADE: no A- A A+".toList 11 = "no A- A A+".toList ∧
    firstTok (gradeBlockOf "SUMMARY: s GRADE: no A- A A+".toList 11) ∉ valid_grades ∧
    idx? (gradeBlockOf "SUMMARY: s GRADE: no A- A A+".toList 11) "A-".toList
      = some 3 ∧
    idx? ((gradeBlockOf "SUMMARY: s GRADE: no A- A A+".toList 11).drop 5) "A".toList
      = some 1 ∧
    (parseResponse "SUMMARY: s GRADE: no A- A A+".toList).grade = "A+".toList ∧
    (parseResponse "SUMMARY: s GRADE: no A- A A+".toList).grade ≠ "A-".toList := by
  decide

/-- C2 amended: for every grade block whose first token is invalid, the
fallback scan checks modifier tokens before bare tokens before `F` in the
fixed order `A+, A-, B+, B-, C+, C-, D+, D-, A, B, C, D, F`; in particular
a block containing `A-` — at any position relative to `A` — and not
containing the higher-priority token `A+` yields `A-`, not `A`. -/
theorem fallback_scan_modifier_priority (text : List Char) (si gi : Nat)
    (h1 : idx? (pstrip text) SUMMARY_MARK = some si)
    (h2 : idx? (pstrip text) GRADE_MARK = some gi)
    (hft : firstTok (gradeBlockOf text gi) ∉ valid_grades)
    (hAm : hasSub (gradeBlockOf text gi) "A-".toList = true)
    (hAp : hasSub (gradeBlockOf text gi) "A+".toList = false) :
    (parseResponse text).grade = "A-".toList := by
  unfold gradeBlockOf at hft hAm hAp
  simp only [parseResponse, h1, h2, gradeFromBlock, if_neg hft]
  have e : grade_priority
      = "A+".toList :: "A-".toList ::
        (["B+", "B-", "C+", "C-", "D+", "D-", "A", "B", "C", "D", "F"].map
          String.toList) := rfl
  rw [e, List.find?_cons_of_neg _ (by simp only [hAp]; exact Bool.false_ne_true),
    List.find?_cons_of_pos _ (by simp only [hAm])]

/-- C2 amended witness: in `"SUMMARY: s GRADE: grade A later A-"` the
block's first token `grade` is invalid, `A-` occurs but `A+` does not, and
the parser returns `A-` although the bare `A` occurs first positionally. -/
theorem fallback_scan_modifier_priority_witness :
    idx? (pstrip "SUMMARY: s GRADE: grade A later A-".toList) SUMMARY_MARK
      = some 0 ∧
    idx? (pstrip "SUMMARY: s GRADE: grade A later A-".toList) GRADE_MARK
      = some 11 ∧
    firstTok (gradeBlockOf "SUMMARY: s GRADE: grade A later A-".toList 11)
      ∉ valid_grades ∧
    (parseResponse "SUMMARY: s GRADE: grade A later A-".toList).grade
      = "A-".toList :=
  ⟨by decide, by decide, by decide,
   fallback_scan_modifier_priority "SUMMARY: s GRADE: grade A later A-".toList 0 11
     (by decide) (by decide) (by decide) (by decide) (by decide)⟩

/-- C3: when neither `SUMMARY:` nor `GRADE:` occurs in the (stripped) raw
model text, `analyze_player` still answers HTTP 200, with the whole
stripped raw text as summary, an empty `grade_letter`, and `grade_text`
exactly `"Grade not detected."`. -/
theorem no_markers_degraded_success (text : List Char)
    (h1 : hasSub (pstrip text) SUMMARY_MARK = false)
    (h2 : hasSub (pstrip text) GRADE_MARK = false) :
    analyzeRespond text = (200, ⟨pstrip text, [], "Grade not detected.".toList⟩) := by
  have e1 : idx? (pstrip text) SUMMARY_MARK = none := by
    revert h1; unfold hasSub
    cases idx? (pstrip text) SUMMARY_MARK <;> simp
  have e2 : idx? (pstrip text) GRADE_MARK = none := by
    revert h2; unfold hasSub
    cases idx? (pstrip text) GRADE_MARK <;> simp
  unfold analyzeRespond parseResponse
  rw [e1, e2]

/-- C3 witness: a markerless response is returned whole as the summary
with the grade explicitly undetected, at status 200. -/
theorem no_markers_degraded_success_witness :
    hasSub (pstrip "  The player had a fine season overall.  ".toList) SUMMARY_MARK
      = false ∧
    hasSub (pstrip "  The player had a fine season overall.  ".toList) GRADE_MARK
      = false ∧
    analyzeRespond "  The player had a fine season overall.  ".toList
      = (200, ⟨"The player had a fine season overall.".toList, [],
               "Grade not detected.".toList⟩) :=
  ⟨by decide, by decide,
   by rw [no_markers_degraded_success "  The player had a fine season overall.  ".toList
       (by decide) (by decide)]; decide⟩

/-- C4 counterexample: `"GRADE: A SUMMARY: hi"` contains both markers, yet
the parsed summary is empty (the claim requires it non-empty): the slice
between the end of `SUMMARY:` and the position of the first `GRADE:` is
empty whenever `GRADE:` precedes `SUMMARY:`. -/
theorem wellformed_summary_counterexample :
    hasSub (pstrip "GRADE: A SUMMARY: hi".toList) SUMMARY_MARK = true ∧
    hasSub (pstrip "GRADE: A SUMMARY: hi".toList) GRADE_MARK = true ∧
    (parseResponse "GRADE: A SUMMARY: hi".toList).summary = [] ∧
    (parseResponse "GRADE: A SUMMARY: hi".toList).grade = "A".toList := by
  decide

/-- C4 amended: for every raw model response containing both markers, the
summary is the stripped text strictly between the end of the first
`SUMMARY:` and the first `GRADE:` — possibly empty, e.g. when `GRADE:`
precedes `SUMMARY:` — and the grade is one of the 13 valid tokens, or
`""` only when no valid token occurs anywhere in the grade block. -/
theorem wellformed_grade_characterization (text : List Char) (si gi : Nat)
    (h1 : idx? (pstrip text) SUMMARY_MARK = some si)
    (h2 : idx? (pstrip text) GRADE_MARK = some gi) :
    (parseResponse text).summary
      = pstrip (((pstrip text).drop (si + SUMMARY_MARK.length)).take
          (gi - (si + SUMMARY_MARK.length))) ∧
    ((parseResponse text).grade ∈ valid_grades ∨
      ((parseResponse text).grade = [] ∧
        ∀ g ∈ valid_grades, hasSub (gradeBlockOf text gi) g = false)) := by
  constructor
  · simp only [parseResponse, h1, h2]
  · simp only [parseResponse, h1, h2]
    exact gradeFromBlock_spec (pstrip ((pstrip text).drop (gi + GRADE_MARK.length)))

/-- C4 amended witness: `"SUMMARY: good stuff GRADE: B+ solid"` parses to
summary `"good stuff"` and grade `B+`. -/
theorem wellformed_grade_characterization_witness :
    idx? (pstrip "SUMMARY: good stuff GRADE: B+ solid".toList) SUMMARY_MARK
      = some 0 ∧
    idx? (pstrip "SUMMARY: good stuff GRADE: B+ solid".toList) GRADE_MARK
      = some 20 ∧
    ((parseResponse "SUMMARY: good stuff GRADE: B+ solid".toList).summary
        = pstrip (((pstrip "SUMMARY: good stuff GRADE: B+ solid".toList).drop
            (0 + SUMMARY_MARK.length)).take (20 - (0 + SUMMARY_MARK.length))) ∧
      ((parseResponse "SUMMARY: good stuff GRADE: B+ solid".toList).grade
          ∈ valid_grades ∨
        ((parseResponse "SUMMARY: good stuff GRADE: B+ solid".toList).grade = [] ∧
          ∀ g ∈ valid_grades,
            hasSub (gradeBlockOf "SUMMARY: good stuff GRADE: B+ solid".toList 20) g
              = false))) :=
  ⟨by decide, by decide,
   wellformed_grade_characterization "SUMMARY: good stuff GRADE: B+ solid".toList 0 20
     (by decide) (by decide)⟩

/-- C9: invariant — for every raw model response whatsoever, the grade
field of a successful `/api/analyze` result is either the empty string or
one of the 13 valid grade tokens. -/
theorem grade_invariant (text : List Char) :
    (parseResponse text).grade = [] ∨ (parseResponse text).grade ∈ valid_grades := by
  unfold parseResponse
  cases h1 : idx? (pstrip text) SUMMARY_MARK with
  | none =>
      cases h2 : idx? (pstrip text) GRADE_MARK with
      | none => exact Or.inl rfl
      | some gi => exact Or.inl rfl
  | some si =>
      cases h2 : idx? (pstrip text) GRADE_MARK with
      | none => exact Or.inl rfl
      | some gi =>
          rcases gradeFromBlock_spec
              (pstrip ((pstrip text).drop (gi + GRADE_MARK.length))) with h | h
          · exact Or.inr h
          · exact Or.inl h.1

/-- The batters list produced by `get_players` is pairwise descending in
games played. -/
theorem teamBatters_sorted (team : String) (df : List BatterRow) :
    (teamBatters team df).Pairwise battersGE :=
  List.sorted_insertionSort battersGE _

/-- The pitchers list produced by `get_players` is pairwise descending in
games played. -/
theorem teamPitchers_sorted (team : String) (df : List PitcherRow) :
    (teamPitchers team df).Pairwise pitchersGE :=
  List.sorted_insertionSort pitchersGE _

/-- C5: every team roster response from `/api/players` has its batters
list and its pitchers list sorted in descending order of the `games`
field: each earlier element's games is greater than or equal to every
later element's games (so in particular the first element's). -/
theorem players_lists_sorted_desc (team : String) (year : Int)
    (bdf : List BatterRow) (pdf : List PitcherRow) (r : PlayersResp)
    (h : getPlayersEndpoint team year bdf pdf = (200, .ok r)) :
    r.batters.Pairwise (fun a b => b.games ≤ a.games) ∧
    r.pitchers.Pairwise (fun a b => b.games ≤ a.games) := by
  unfold getPlayersEndpoint at h
  by_cases hc : team = "" ∨ year = 0
  · rw [if_pos hc] at h
    simp at h
  · rw [if_neg hc] at h
    simp only [Prod.mk.injEq, PlayersBody.ok.injEq] at h
    obtain ⟨-, rfl⟩ := h
    exact ⟨teamBatters_sorted team bdf, teamPitchers_sorted team pdf⟩

/-- C5 witness: a concrete `NYY, 2023` roster request returns the batters
in games-descending order (150 before 100) and the single pitcher. -/
theorem players_lists_sorted_desc_witness :
    getPlayersEndpoint "NYY" 2023 [wBatterA, wBatterB, wBatterC] [wPitcher]
      = (200, .ok ⟨"New York Yankees", 2023,
          [mkRosterBatter wBatterB, mkRosterBatter wBatterA],
          [mkRosterPitcher wPitcher]⟩) ∧
    ((⟨"New York Yankees", 2023,
        [mkRosterBatter wBatterB, mkRosterBatter wBatterA],
        [mkRosterPitcher wPitcher]⟩ : PlayersResp)).batters.Pairwise
      (fun a b => b.games ≤ a.games) ∧
    ((⟨"New York Yankees", 2023,
        [mkRosterBatter wBatterB, mkRosterBatter wBatterA],
        [mkRosterPitcher wPitcher]⟩ : PlayersResp)).pitchers.Pairwise
      (fun a b => b.games ≤ a.games) :=
  ⟨by decide,
   players_lists_sorted_desc "NYY" 2023 [wBatterA, wBatterB, wBatterC] [wPitcher]
     ⟨"New York Yankees", 2023,
      [mkRosterBatter wBatterB, mkRosterBatter wBatterA],
      [mkRosterPitcher wPitcher]⟩ (by decide)⟩

/-- C6: every `/api/player-stats` request — whatever its `type` value —
whose name matches no row of the season dataset consulted by its branch,
under exact string equality on the `Name` column, answers HTTP 404 with
body error `"Player not found"` — a status distinct from the 500 used for
retrieval failures. -/
theorem player_not_found_404 (name : String) (year : Int) (ptype : String)
    (bdf : List BatterRow) (pdf : List PitcherRow)
    (hn : name ≠ "") (hy : year ≠ 0)
    (habs : if ptype = "Batter" then ∀ r ∈ bdf, r.Name ≠ name
      else ∀ r ∈ pdf, r.Name ≠ name) :
    getPlayerStats name year ptype bdf pdf = (404, .error "Player not found") := by
  unfold getPlayerStats
  rw [if_neg (by simp [hn, hy])]
  by_cases ht : ptype = "Batter"
  · rw [if_pos ht]
    rw [if_pos ht] at habs
    have hfilter : bdf.filter (fun r => r.Name = name) = [] := by
      rw [List.filter_eq_nil_iff]
      intro a ha
      simp only [decide_eq_true_eq]
      exact habs a ha
    rw [hfilter]
  · rw [if_neg ht]
    rw [if_neg ht] at habs
    have hfilter : pdf.filter (fun r => r.Name = name) = [] := by
      rw [List.filter_eq_nil_iff]
      intro a ha
      simp only [decide_eq_true_eq]
      exact habs a ha
    rw [hfilter]

/-- C6 witness: `name="NoSuchPlayer", year=2023` against datasets that do
not contain that name answers 404 Player not found on the Batter branch
(`type="Batter"`) and on the Pitcher branch (`type="Pitcher"`) alike. -/
theorem player_not_found_404_witness :
    "NoSuchPlayer" ≠ "" ∧ (2023 : Int) ≠ 0 ∧
    (∀ r ∈ [wBatterA, wBatterB, wBatterC], r.Name ≠ "NoSuchPlayer") ∧
    (∀ r ∈ [wPitcher], r.Name ≠ "NoSuchPlayer") ∧
    getPlayerStats "NoSuchPlayer" 2023 "Batter" [wBatterA, wBatterB, wBatterC]
        [wPitcher]
      = (404, .error "Player not found") ∧
    getPlayerStats "NoSuchPlayer" 2023 "Pitcher" [wBatterA, wBatterB, wBatterC]
        [wPitcher]
      = (404, .error "Player not found") :=
  ⟨by decide, by decide, by decide, by decide,
   player_not_found_404 "NoSuchPlayer" 2023 "Batter" [wBatterA, wBatterB, wBatterC]
     [wPitcher] (by decide) (by decide) (by decide),
   player_not_found_404 "NoSuchPlayer" 2023 "Pitcher" [wBatterA, wBatterB, wBatterC]
     [wPitcher] (by decide) (by decide) (by decide)⟩

set_option maxRecDepth 20000 in
/-- C7 counterexample: `team` is a field of the Batter `/api/player-stats`
response, yet for a concrete analyze payload whose `team` value is
`TEAMX`, no stat line of the assembled block carries that value at all —
the batter stat lines cover only the sixteen numeric stat fields, not
`name`, `year`, `type` or `team`. -/
theorem batter_roundtrip_counterexample :
    "team" ∈ batterStatsFields ∧
    wData.team = "TEAMX".toList ∧
    hasSub (statsBlock (batterStatLines wData)) "TEAMX".toList = false ∧
    (∀ l ∈ batterStatLines wData, hasSub l "TEAMX".toList = false) := by
  decide

/-- C7 amended: each of the sixteen numeric stat fields of the Batter
`/api/player-stats` response (games, at_bats, hits, avg, obp, slg, ops,
home_runs, rbi, stolen_bases, walks, strikeouts, doubles, triples, war,
wrc_plus) appears, with its fixed label, as a `Label: value` line of the
stat-line block assembled for the `/api/analyze` prompt; the `name`,
`year`, `type` and `team` fields do not appear as stat lines. -/
theorem batter_stat_fields_covered (d : AnalyzeData) :
    ("Games: ".toList ++ d.games) ∈ batterStatLines d ∧
    ("At-Bats: ".toList ++ d.at_bats) ∈ batterStatLines d ∧
    ("Hits: ".toList ++ d.hits) ∈ batterStatLines d ∧
    ("Batting Average (AVG): ".toList ++ d.avg) ∈ batterStatLines d ∧
    ("On-Base Percentage (OBP): ".toList ++ d.obp) ∈ batterStatLines d ∧
    ("Slugging Percentage (SLG): ".toList ++ d.slg) ∈ batterStatLines d ∧
    ("OPS: ".toList ++ d.ops) ∈ batterStatLines d ∧
    ("Home Runs (HR): ".toList ++ d.home_runs) ∈ batterStatLines d ∧
    ("RBI: ".toList ++ d.rbi) ∈ batterStatLines d ∧
    ("Stolen Bases (SB): ".toList ++ d.stolen_bases) ∈ batterStatLines d ∧
    ("Walks (BB): ".toList ++ d.walks) ∈ batterStatLines d ∧
    ("Strikeouts (SO): ".toList ++ d.strikeouts) ∈ batterStatLines d ∧
    ("Doubles (2B): ".toList ++ d.doubles) ∈ batterStatLines d ∧
    ("Triples (3B): ".toList ++ d.triples) ∈ batterStatLines d ∧
    ("WAR: ".toList ++ d.war) ∈ batterStatLines d ∧
    ("wRC+: ".toList ++ d.wrc_plus) ∈ batterStatLines d := by
  simp [batterStatLines]

/-- C8: a `/api/analyze` request with type `"Pitcher"` selects the pitcher
stat lines, role context and grading rubric, and the assembled prompt
embeds the pitcher benchmark table and the pitcher stat-line block — and
the pitcher rubric is not the position-player rubric. -/
theorem pitcher_prompt_uses_pitcher_rubric (d : AnalyzeData) :
    selectRole "Pitcher" d
      = ⟨pitcherStatLines d, "pitcher".toList, pitcherBenchmarks⟩ ∧
    pitcherBenchmarks <:+: buildPrompt "Pitcher" d ∧
    statsBlock (pitcherStatLines d) <:+: buildPrompt "Pitcher" d ∧
    pitcherBenchmarks ≠ batterBenchmarks := by
  have hsel : selectRole "Pitcher" d
      = ⟨pitcherStatLines d, "pitcher".toList, pitcherBenchmarks⟩ := by
    unfold selectRole
    rw [if_neg (by decide)]
  refine ⟨hsel, ?_, ?_, by decide⟩
  · have e : buildPrompt "Pitcher" d
        = (promptHead d ++ "pitcher".toList ++ ".\n\n".toList) ++
          pitcherBenchmarks ++
          ("\n\n".toList ++ d.year ++ " Season Stats:\n".toList ++
            statsBlock (pitcherStatLines d) ++ promptTail) := by
      simp [buildPrompt, hsel, List.append_assoc]
    rw [e]
    exact List.infix_append _ _ _
  · have e : buildPrompt "Pitcher" d
        = (promptHead d ++ "pitcher".toList ++ ".\n\n".toList ++
            pitcherBenchmarks ++ "\n\n".toList ++ d.year ++
            " Season Stats:\n".toList) ++
          statsBlock (pitcherStatLines d) ++ promptTail := by
      simp [buildPrompt, hsel, List.append_assoc]
    rw [e]
    exact List.infix_append _ _ _

/-- C10: any `type` value other than exactly `"Batter"` takes the Pitcher
branch in both endpoints: `analyze_player` selects the pitcher stat lines
and rubric, and `get_player_stats` behaves exactly as with
`type="Pitcher"` (pitcher dataset lookup). -/
theorem non_batter_type_selects_pitcher (ptype : String) (d : AnalyzeData)
    (name : String) (year : Int) (bdf : List BatterRow) (pdf : List PitcherRow)
    (ht : ptype ≠ "Batter") :
    selectRole ptype d
      = ⟨pitcherStatLines d, "pitcher".toList, pitcherBenchmarks⟩ ∧
    getPlayerStats name year ptype bdf pdf
      = getPlayerStats name year "Pitcher" bdf pdf := by
  constructor
  · unfold selectRole
    rw [if_neg ht]
  · unfold getPlayerStats
    by_cases hc : name = "" ∨ year = 0
    · rw [if_pos hc, if_pos hc]
    · rw [if_neg hc, if_neg hc, if_neg ht, if_neg (by decide : ¬("Pitcher" = "Batter"))]

/-- C10 witness: the lowercase string `"pitcher"` is not `"Batter"`, so a
concrete lookup with it behaves as the Pitcher branch. -/
theorem non_batter_type_selects_pitcher_witness :
    ("pitcher" : String) ≠ "Batter" ∧
    (selectRole "pitcher" wData
        = ⟨pitcherStatLines wData, "pitcher".toList, pitcherBenchmarks⟩ ∧
      getPlayerStats "Gerrit Cole" 2023 "pitcher" [wBatterA, wBatterB] [wPitcher]
        = getPlayerStats "Gerrit Cole" 2023 "Pitcher" [wBatterA, wBatterB]
            [wPitcher]) :=
  ⟨by decide,
   non_batter_type_selects_pitcher "pitcher" wData "Gerrit Cole" 2023
     [wBatterA, wBatterB] [wPitcher] (by decide)⟩

end MLBAnalyzer
